import Mathlib

/-!
Shallow embedding of gmso/core/virtual_site.py (class VirtualSite) together
with the parts of its data model the class depends on, and theorems checking
the natural-language specification of the virtual-site resolution core
against this code.

Conventions of the embedding:
- positions are 3-vectors of rational coordinates (length units, nm);
- charges are rationals (elementary charge units);
- Python None is Lean none; raising an exception is returning Except.error;
- attribute reads through __dict__.get are Option lookups.
-/

namespace Gmso

/-- Positions are 3-vectors of rational coordinates, in length units (nm). -/
abbrev Vec3 := ℚ × ℚ × ℚ

/-- External collaborator gmso.abc.abstract_site.Site (out of scope of the
core): the core only needs its name, its queryable 3-vector position, and the
string produced by its own __repr__, so a parent site is embedded as exactly
those three data. -/
structure Site where
  name : String
  pos : Vec3
  reprS : String
deriving DecidableEq

/-- Modelled from the spec: the expression holder (a VirtualPositionType-like
object) owned by a VirtualType; gmso/core/virtual_type.py is not under src/.
Per the spec it stores a symbolic expression and declares a fixed, named set
of independent variables (r_i, r_j, r_k, ...). -/
structure VirtualPositionType where
  expression : String
  independent_variables : List String
deriving DecidableEq

/-- Modelled from the spec: VirtualType (gmso/core/virtual_type.py is not
under src/) bundles an optional position expression, an optional potential
expression, and an optional default charge in elementary charge units. -/
structure VirtualType where
  virtual_position : Option VirtualPositionType
  virtual_potential : Option String
  charge : Option ℚ
deriving DecidableEq

/-- Embedding of the state of gmso.core.virtual_site.VirtualSite. The
backing fields are stored under private keys of __dict__; an Option value of
none models the key holding None (for charge_, virtual_type_) or the key
being absent (for parent_sites_, whose accessor supplies [] as the dict.get
default). The name comes from the Site base class. -/
structure VirtualSite where
  name : String
  parent_sites_ : Option (List Site)
  charge_ : Option ℚ
  virtual_type_ : Option VirtualType
deriving DecidableEq

/-- Embedding of the parent_sites property of VirtualSite
(virtual_site.py lines 56-59): the body is
return self.__dict__.get("parent_sites_", []). -/
def VirtualSite.parent_sites (s : VirtualSite) : List Site :=
  s.parent_sites_.getD []

/-- Embedding of the virtual_type property of VirtualSite
(virtual_site.py lines 80-83): the body is
return self.__dict__.get("virtual_type_"), whose dict.get default is None. -/
def VirtualSite.virtual_type (s : VirtualSite) : Option VirtualType :=
  s.virtual_type_

/-- The exceptions raised by VirtualSite.position in terms of
gmso/exceptions.py: MissingPotentialError and NotYetImplementedWarning,
each carrying its message. -/
inductive PosErr where
  | missingPotentialError (msg : String)
  | notYetImplementedWarning (msg : String)
deriving DecidableEq

/-- Message of the MissingPotentialError raised when no VirtualType is
assigned (virtual_site.py lines 63-66). -/
def msgNoVirtualType : String :=
  "No VirtualType associated with this VirtualSite."

/-- Message of the MissingPotentialError raised when the assigned VirtualType
has no position expression (virtual_site.py lines 67-70). -/
def msgNoVirtualPositionType : String :=
  "No VirtualPositionType associated with this VirtualType."

/-- Message of the NotYetImplementedWarning raised by the remaining body of
position (virtual_site.py lines 72-75). -/
def msgNotYetImplemented : String :=
  "Need a functional to call from self.virtual_type.virtual_position, and plug in ri, rj, rk etc."

/-- Embedding of the method VirtualSite.position (virtual_site.py lines
61-75). The test `if not self.virtual_type` is Python truthiness on the
accessor result: None is falsy and a VirtualType instance is truthy, and
likewise for `if not self.virtual_type.virtual_position`; each failing test
raises MissingPotentialError, and the remaining body unconditionally raises
NotYetImplementedWarning (the substitution-and-evaluate step is a TODO in
the source). -/
def VirtualSite.position (s : VirtualSite) : Except PosErr Vec3 :=
  match s.virtual_type with
  | none => Except.error (PosErr.missingPotentialError msgNoVirtualType)
  | some vt =>
    match vt.virtual_position with
    | none => Except.error (PosErr.missingPotentialError msgNoVirtualPositionType)
    | some _ => Except.error (PosErr.notYetImplementedWarning msgNotYetImplemented)

/-- State-passing form of VirtualSite.position: each branch returns, next to
the raised exception, the state of the object at the point where the method
body ends; the body of the Python method contains no assignment to any field
of self, so every branch hands back the entry state unchanged. -/
def VirtualSite.positionRun (s : VirtualSite) : Except PosErr Vec3 × VirtualSite :=
  match s.virtual_type with
  | none => (Except.error (PosErr.missingPotentialError msgNoVirtualType), s)
  | some vt =>
    match vt.virtual_position with
    | none => (Except.error (PosErr.missingPotentialError msgNoVirtualPositionType), s)
    | some _ => (Except.error (PosErr.notYetImplementedWarning msgNotYetImplemented), s)

/-- Modelled from the spec: the computed charge property is absent from
src/gmso/core/virtual_site.py (only the backing field charge_ is declared
there, lines 33-35). The spec resolves charge to charge_ if present, else to
the charge of virtual_type_ when that is set and carries one, else to
undefined — an absence signal (none), not zero. -/
def VirtualSite.charge (s : VirtualSite) : Option ℚ :=
  match s.charge_ with
  | some c => some c
  | none =>
    match s.virtual_type_ with
    | some vt => vt.charge
    | none => none

/-- The separator string of the join in VirtualSite.__repr__: the literal
between + and .join on line 78 of virtual_site.py. -/
def reprSep : String :=
  ": -"

/-- Semantics of the Python built-in sep.join(strings): the elements joined
with the separator between consecutive elements, the empty string on an
empty list. -/
def pyJoin (sep : String) : List String → String
  | [] => ""
  | [x] => x
  | x :: y :: xs => x ++ sep ++ pyJoin sep (y :: xs)

/-- Auxiliary for relating pyJoin to String.intercalate: the separator-first
join, prefixing every element with the separator. -/
def preJoin (sep : String) : List String → String
  | [] => ""
  | y :: ys => sep ++ y ++ preJoin sep ys

/-- Embedding of VirtualSite.__repr__ (virtual_site.py lines 77-78):
self.name + ": -".join(site.__repr__() for site in self.parent_sites).
Note the precedence: the join separator is the whole literal ": -", and the
joined rendering is concatenated directly after the name. -/
def VirtualSite.reprPy (s : VirtualSite) : String :=
  s.name ++ pyJoin reprSep (s.parent_sites.map Site.reprS)

/-- Specification-side rendering for the representation claim: the name of
the site combined with the hyphen-carrying separator interleaved between the
representations of its parent sites, in parent-site order, phrased with the
library joiner String.intercalate. -/
def VirtualSite.reprFromSpec (s : VirtualSite) : String :=
  s.name ++ String.intercalate reprSep (s.parent_sites.map Site.reprS)

/-- Concrete parent site at (0,0,0) nm. -/
def siteA : Site :=
  { name := "A"
    pos := (0, 0, 0)
    reprS := "A" }

/-- Concrete parent site at (2,0,0) nm. -/
def siteB : Site :=
  { name := "B"
    pos := (2, 0, 0)
    reprS := "B" }

/-- The midpoint expression of the example scenario of the spec, with its
two independent variables. -/
def midpointExpr : VirtualPositionType :=
  { expression := "0.5*r_i + 0.5*r_j"
    independent_variables := ["r_i", "r_j"] }

/-- A VirtualType carrying the midpoint position expression. -/
def midpointType : VirtualType :=
  { virtual_position := some midpointExpr
    virtual_potential := none
    charge := none }

/-- The VirtualSite of the example scenario: midpoint type, parents at
(0,0,0) nm and (2,0,0) nm. -/
def vsMidpoint : VirtualSite :=
  { name := "VS"
    parent_sites_ := some [siteA, siteB]
    charge_ := none
    virtual_type_ := some midpointType }

/-- A position expression declaring three independent variables. -/
def threeVarExpr : VirtualPositionType :=
  { expression := "w1*r_i + w2*r_j + w3*r_k"
    independent_variables := ["r_i", "r_j", "r_k"] }

/-- A VirtualType whose expression requires three parent sites. -/
def threeVarType : VirtualType :=
  { virtual_position := some threeVarExpr
    virtual_potential := none
    charge := none }

/-- A VirtualSite holding only two parent sites while its type declares
three independent variables. -/
def vsTwoOfThree : VirtualSite :=
  { name := "VS3"
    parent_sites_ := some [siteA, siteB]
    charge_ := none
    virtual_type_ := some threeVarType }

/-- A VirtualSite with nothing assigned: no parents, no charge, no type. -/
def vsBare : VirtualSite :=
  { name := "VS0"
    parent_sites_ := none
    charge_ := none
    virtual_type_ := none }

/-- A VirtualType with no position expression but a default charge. -/
def typeNoExpr : VirtualType :=
  { virtual_position := none
    virtual_potential := none
    charge := none }

/-- A VirtualSite whose type carries no position expression. -/
def vsTypedNoExpr : VirtualSite :=
  { name := "VS2"
    parent_sites_ := some [siteA]
    charge_ := none
    virtual_type_ := some typeNoExpr }

/-- A VirtualType carrying a default charge of -1/2 e. -/
def typeWithCharge : VirtualType :=
  { virtual_position := none
    virtual_potential := none
    charge := some (-1 / 2) }

/-- A VirtualSite with both an explicit charge override of 3/4 e and a type
default charge of -1/2 e. -/
def vsOverride : VirtualSite :=
  { name := "VSQ"
    parent_sites_ := some []
    charge_ := some (3 / 4)
    virtual_type_ := some typeWithCharge }

theorem positionRun_eq (s : VirtualSite) : s.positionRun = (s.position, s) := by
  rcases h : s.virtual_type with _ | vt
  · simp [VirtualSite.positionRun, VirtualSite.position, h]
  · rcases h2 : vt.virtual_position with _ | e
    · simp [VirtualSite.positionRun, VirtualSite.position, h, h2]
    · simp [VirtualSite.positionRun, VirtualSite.position, h, h2]

theorem position_depends_only_on_type (s t : VirtualSite)
    (hvt : s.virtual_type_ = t.virtual_type_) : s.position = t.position := by
  unfold VirtualSite.position VirtualSite.virtual_type
  rw [hvt]

theorem intercalate_go_eq (sep : String) (l : List String) : ∀ acc : String,
    String.intercalate.go acc sep l = acc ++ preJoin sep l := by
  induction l with
  | nil => intro acc; simp [String.intercalate.go, preJoin]
  | cons y ys ih =>
    intro acc
    rw [String.intercalate.go, ih, preJoin]
    simp [String.append_assoc]

theorem pyJoin_cons (sep y : String) (ys : List String) :
    pyJoin sep (y :: ys) = y ++ preJoin sep ys := by
  induction ys generalizing y with
  | nil => simp [pyJoin, preJoin]
  | cons z zs ih =>
    rw [pyJoin, ih, preJoin]
    simp [String.append_assoc]

theorem intercalate_eq_pyJoin (sep : String) (l : List String) :
    String.intercalate sep l = pyJoin sep l := by
  cases l with
  | nil => rfl
  | cons x xs => rw [String.intercalate, intercalate_go_eq, pyJoin_cons]

/-- C1: at the exact scenario of the spec — a position expression
0.5*r_i + 0.5*r_j over r_i and r_j, parent sites at (0,0,0) nm and
(2,0,0) nm — the code under src/ does not perform the
substitution-and-evaluate algorithm and does not return (1,0,0) nm: the call
raises NotYetImplementedWarning. -/
theorem c1_midpoint_call_raises :
    vsMidpoint.position
      = Except.error (PosErr.notYetImplementedWarning msgNotYetImplemented) :=
  rfl

/-- C2: with a VirtualType whose expression declares 3 independent variables
attached to a VirtualSite holding only 2 parent sites, the code performs no
mismatch validation: the call raises NotYetImplementedWarning, not a
ParentSiteMismatchError (no such exception exists anywhere in the code, as
the PosErr taxonomy reachable from position reflects). -/
theorem c2_mismatch_not_checked :
    threeVarExpr.independent_variables.length = 3
      ∧ vsTwoOfThree.parent_sites.length = 2
      ∧ vsTwoOfThree.position
          = Except.error (PosErr.notYetImplementedWarning msgNotYetImplemented) :=
  ⟨rfl, rfl, rfl⟩

/-- C3: for every VirtualSite with no virtual_type assigned, position raises
MissingPotentialError with the no-VirtualType message. -/
theorem c3_no_virtual_type_missing_potential (s : VirtualSite)
    (h : s.virtual_type = none) :
    s.position = Except.error (PosErr.missingPotentialError msgNoVirtualType) := by
  simp [VirtualSite.position, h]

/-- Witness for C3 at the concrete site vsBare, which has no assigned
virtual type. -/
theorem c3_witness :
    vsBare.position = Except.error (PosErr.missingPotentialError msgNoVirtualType) :=
  c3_no_virtual_type_missing_potential vsBare rfl

/-- C4: for every VirtualSite whose virtual_type is assigned but carries no
position expression, position raises MissingPotentialError with the
no-VirtualPositionType message. -/
theorem c4_no_expression_missing_potential (s : VirtualSite) (vt : VirtualType)
    (h1 : s.virtual_type = some vt) (h2 : vt.virtual_position = none) :
    s.position = Except.error (PosErr.missingPotentialError msgNoVirtualPositionType) := by
  simp [VirtualSite.position, h1, h2]

/-- Witness for C4 at the concrete site vsTypedNoExpr, whose type has no
position expression. -/
theorem c4_witness :
    vsTypedNoExpr.position
      = Except.error (PosErr.missingPotentialError msgNoVirtualPositionType) :=
  c4_no_expression_missing_potential vsTypedNoExpr typeNoExpr rfl rfl

/-- C5: the computed charge resolves with the priority of the spec — the
explicit override of the site if set, else the default charge of the
virtual_type when the type is set and carries one, else undefined (none,
an absence signal distinct from zero). -/
theorem c5_charge_priority (s : VirtualSite) :
    (∀ c : ℚ, s.charge_ = some c → s.charge = some c)
      ∧ (∀ vt : VirtualType, ∀ q : ℚ, s.charge_ = none → s.virtual_type_ = some vt →
          vt.charge = some q → s.charge = some q)
      ∧ (s.charge_ = none → s.virtual_type_ = none → s.charge = none)
      ∧ (∀ vt : VirtualType, s.charge_ = none → s.virtual_type_ = some vt →
          vt.charge = none → s.charge = none) := by
  refine ⟨?_, ?_, ?_, ?_⟩ <;> intros <;> simp [VirtualSite.charge, *]

/-- Witness for C5 at the concrete site vsOverride, which carries both an
explicit override (3/4 e) and a type default (-1/2 e): the override wins. -/
theorem c5_witness : vsOverride.charge = some (3 / 4) :=
  (c5_charge_priority vsOverride).1 (3 / 4) rfl

/-- C6: determinism — with the backing type and parent list fixed, position
is the same value or the same failure, and two successive calls (threaded
through the state-passing form) return identical results. -/
theorem c6_position_deterministic (s t : VirtualSite)
    (hvt : s.virtual_type_ = t.virtual_type_)
    (hps : s.parent_sites_ = t.parent_sites_) :
    s.position = t.position
      ∧ (s.positionRun).1 = (((s.positionRun).2).positionRun).1 := by
  refine ⟨position_depends_only_on_type s t hvt, ?_⟩
  simp [positionRun_eq]

/-- Witness for C6 at the concrete site vsMidpoint. -/
theorem c6_witness :
    vsMidpoint.position = vsMidpoint.position
      ∧ (vsMidpoint.positionRun).1 = (((vsMidpoint.positionRun).2).positionRun).1 :=
  c6_position_deterministic vsMidpoint vsMidpoint rfl rfl

/-- C7: frame condition — the state handed back by position is the entry
state itself, so parent_sites, virtual_type, and the state of every parent
site are unchanged whether the call fails one way or the other. -/
theorem c7_position_frame (s : VirtualSite) :
    (s.positionRun).2 = s
      ∧ ((s.positionRun).2).parent_sites = s.parent_sites
      ∧ ((s.positionRun).2).virtual_type = s.virtual_type := by
  rw [positionRun_eq]
  exact ⟨rfl, rfl, rfl⟩

/-- C8: the representation equals the name of the site combined with the
separator-joined rendering of the representations of its parent sites, in
parent-site order: the embedded __repr__ coincides with the
specification-side rendering phrased through String.intercalate. -/
theorem c8_repr_hyphen_joined (s : VirtualSite) :
    s.reprPy = s.reprFromSpec := by
  unfold VirtualSite.reprPy VirtualSite.reprFromSpec
  rw [intercalate_eq_pyJoin]

/-- C9: in the current code position never returns normally — every call
produces one of the three raised exceptions (MissingPotentialError when the
virtual_type or its position expression is absent, NotYetImplementedWarning
otherwise), and no input yields a resolved position vector. -/
theorem c9_position_never_returns (s : VirtualSite) :
    ∃ e : PosErr, s.position = Except.error e
      ∧ (e = PosErr.missingPotentialError msgNoVirtualType
          ∨ e = PosErr.missingPotentialError msgNoVirtualPositionType
          ∨ e = PosErr.notYetImplementedWarning msgNotYetImplemented) := by
  rcases h : s.virtual_type with _ | vt
  · exact ⟨_, by simp [VirtualSite.position, h], Or.inl rfl⟩
  · rcases h2 : vt.virtual_position with _ | e
    · exact ⟨_, by simp [VirtualSite.position, h, h2], Or.inr (Or.inl rfl)⟩
    · exact ⟨_, by simp [VirtualSite.position, h, h2], Or.inr (Or.inr rfl)⟩

/-- C10: the parent_sites accessor is total and pure — it returns the stored
ordered parent list unchanged when one is assigned and the empty list when
the backing key is absent; likewise the virtual_type accessor returns none
when unset. -/
theorem c10_accessors_total (s : VirtualSite) :
    (∀ l : List Site, s.parent_sites_ = some l → s.parent_sites = l)
      ∧ (s.parent_sites_ = none → s.parent_sites = [])
      ∧ (s.virtual_type_ = none → s.virtual_type = none) := by
  refine ⟨?_, ?_, ?_⟩ <;> intros <;>
    simp [VirtualSite.parent_sites, VirtualSite.virtual_type, *]

/-- Witness for C10 at the concrete sites vsMidpoint (assigned parents,
returned unchanged) and vsBare (nothing assigned). -/
theorem c10_witness :
    vsMidpoint.parent_sites = [siteA, siteB]
      ∧ vsBare.parent_sites = []
      ∧ vsBare.virtual_type = none :=
  ⟨(c10_accessors_total vsMidpoint).1 [siteA, siteB] rfl,
   (c10_accessors_total vsBare).2.1 rfl,
   (c10_accessors_total vsBare).2.2 rfl⟩

end Gmso
